import Mathlib

/-!
The request handling pipeline of httpd.c

A shallow embedding of `src/httpd.c` (the per-connection pipeline
`handle_client`, `send_response`, `send_error`, `handle_file_request`,
`handle_cgi_request`) together with the properties established about it.

Conventions of the embedding

* a byte is a `UInt8`; a region of memory read through a `char *` is a
  `List Byte`, and `cstr` gives the C string stored at its start (the bytes
  before the first NUL);
* the socket is write-only for the handlers: every function returns the bytes it
  passes to `send(2)`, in order (each `send` is taken to transmit all its bytes);
* the operating system (file system, allocator, pipe, fork, the launched
  program) is the parameter `Env`.
-/

set_option maxRecDepth 20000

namespace Httpd

abbrev Byte := UInt8

/-- The bytes of an ASCII literal of the C source. -/
def ascii (s : String) : List Byte := s.toList.map (fun c => c.toNat.toUInt8)

/-- The constant `BUFFER_SIZE` of the source (1024). -/
def BUFFER_SIZE : Nat := 1024

/-- The constant `RESPONSE_HEADER_SIZE` of the source (512). -/
def RESPONSE_HEADER_SIZE : Nat := 512

/-- The C string stored at the start of a memory region: the bytes before the first NUL. -/
def cstr (m : List Byte) : List Byte := m.takeWhile (fun c => c != 0)

/-- The value of `strlen(s)`. -/
def strlen (m : List Byte) : Nat := (cstr m).length

/-- The test `strcmp(a, b) == 0`. -/
def strcmp_eq (a b : List Byte) : Bool := cstr a == cstr b

/-- The test `strncmp(a, b, n) == 0`: the two strings agree on their first `n` characters
(a string shorter than `n` must then equal the other one up to its terminator). -/
def strncmp_eq (a b : List Byte) (n : Nat) : Bool := (cstr a).take n == (cstr b).take n

/-- Substring search on string contents: does `needle` occur in `hay`? -/
def find_sub (hay needle : List Byte) : Bool :=
  match hay with
  | [] => needle.isEmpty
  | c :: t => needle.isPrefixOf (c :: t) || find_sub t needle

/-- The test `strstr(hay, needle) != NULL`. -/
def strstr (hay needle : List Byte) : Bool := find_sub (cstr hay) (cstr needle)

/-- What `snprintf(buf, size, fmt, ...)` leaves in `buf` as a C string, given the fully
formatted text: at most `size - 1` characters are stored, then the terminator. -/
def snprintf (size : Nat) (formatted : List Byte) : List Byte := formatted.take (size - 1)

/-- The `%zu` conversion: decimal digits of a `size_t`. -/
def decimal (n : Nat) : List Byte := ascii (Nat.repr n)

/-- The function `isspace` in the "C" locale: space, `\t`, `\n`, `\v`, `\f`, `\r`. -/
def isspace (c : Byte) : Bool := c == 32 || (9 ≤ c && c ≤ 13)

/-- A fresh (uninitialised) buffer of `n` bytes; `garbage i` is the indeterminate byte at
offset `i`. -/
def uninit (garbage : Nat → Byte) (n : Nat) : List Byte := (List.range n).map garbage

/-- The buffer after `read(2)` stored the bytes `got` at its start. -/
def read_into (buf got : List Byte) : List Byte := got.take buf.length ++ buf.drop got.length

/-! ## send_response, send_error (lines 119-139) -/

/-- The text produced by the format string of `send_response`. -/
def response_header (status content_type : List Byte) (content_length : Nat) : List Byte :=
  ascii "HTTP/1.0 " ++ cstr status ++ ascii "\r\n" ++
  ascii "Content-Type: " ++ cstr content_type ++ ascii "\r\n" ++
  ascii "Content-Length: " ++ decimal content_length ++ ascii "\r\n" ++
  ascii "\r\n"

/-- The function `send_response`: the bytes sent on the socket. `body = none` is the `NULL` pointer;
`some b` is the memory the pointer refers to. -/
def send_response (status content_type : List Byte) (body : Option (List Byte))
    (content_length : Nat) : List Byte :=
  let header := snprintf RESPONSE_HEADER_SIZE (response_header status content_type content_length)
  header ++
    (match body with
     | some b => if content_length > 0 then b.take content_length else []
     | none => [])

/-- The text produced by the format string of `send_error`. -/
def error_body (status message : List Byte) : List Byte :=
  ascii "<html><body><h1>" ++ cstr status ++ ascii "</h1><p>" ++ cstr message ++
  ascii "</p></body></html>"

/-- The function `send_error`: the bytes sent on the socket. -/
def send_error (status message : List Byte) : List Byte :=
  let body := snprintf BUFFER_SIZE (error_body status message)
  send_response status (ascii "text/html") (some body) (strlen body)

/-! ## The operating system -/

/-- What `stat(2)` reports when it succeeds: `st_size`, a non-negative `off_t`. -/
structure FileStat where
  st_size : Nat
  st_size_lt : st_size < 2 ^ 63
deriving DecidableEq

/-- The environment a connection handler runs in. -/
structure Env where
  /-- The call `stat(path, &st)`: `none` when it fails. -/
  stat : List Byte → Option FileStat
  /-- The test `access(path, X_OK) == 0`. -/
  access_x : List Byte → Bool
  /-- The test `open(path, O_RDONLY) >= 0`. -/
  open_ok : List Byte → Bool
  /-- The test `malloc(n) != NULL`. -/
  malloc_ok : Nat → Bool
  /-- Indeterminate contents of fresh memory. -/
  garbage : Nat → Byte
  /-- The bytes `read(fd, buf, count)` stores from the file just opened at `path`
  (nothing when the read fails). -/
  file_read : List Byte → Nat → List Byte
  /-- The test `pipe(pipe_fd) >= 0`. -/
  pipe_ok : Bool
  /-- The test `fork() > 0` in `handle_cgi_request` (otherwise `fork` fails). -/
  fork_ok : Bool
  /-- Everything the program `execl`-ed at `path` with `argv` writes to its standard output
  (nothing when `execl` fails). -/
  child_stdout : List Byte → List (List Byte) → List Byte
  /-- The result of the parent's single `read(pipe_fd[0], output, count)` while that child
  runs: `none` is `-1`, `some bs` the bytes stored. -/
  pipe_read : List Byte → List (List Byte) → Nat → Option (List Byte)

/-- The observable effects of serving one connection. -/
structure Result where
  /-- Bytes sent on the client socket. -/
  sent : List Byte
  /-- The `execl(path, argv...)` issued by the forked child, if a child was forked. -/
  exec : Option (List Byte × List (List Byte))
deriving DecidableEq

/-! ## handle_file_request (lines 141-174) -/

/-- The function `handle_file_request`: what is sent for a request on the static route. -/
def handle_file_request (env : Env) (method path : List Byte) : Result :=
  if strstr path (ascii "..") then
    ⟨send_error (ascii "403 Forbidden") (ascii "Access denied."), none⟩
  else
    let filepath := snprintf 256 (ascii "." ++ cstr path)
    match env.stat filepath with
    | none => ⟨send_error (ascii "404 Not Found") (ascii "File not found."), none⟩
    | some file_stat =>
      if strcmp_eq method (ascii "HEAD") then
        ⟨send_response (ascii "200 OK") (ascii "text/html") none file_stat.st_size, none⟩
      else if strcmp_eq method (ascii "GET") then
        if !env.open_ok filepath then
          ⟨send_error (ascii "500 Internal Server Error") (ascii "Failed to open file."), none⟩
        else
          let content : Option (List Byte) :=
            if env.malloc_ok file_stat.st_size then
              some (read_into (uninit env.garbage file_stat.st_size)
                ((env.file_read filepath file_stat.st_size).take file_stat.st_size))
            else none
          ⟨send_response (ascii "200 OK") (ascii "text/html") content file_stat.st_size, none⟩
      else
        ⟨send_error (ascii "501 Not Implemented") (ascii "Method not supported."), none⟩

/-! ## handle_cgi_request (lines 176-224) -/

/-- The function `handle_cgi_request`: what is sent, and which program the forked child
executes, for a request on the CGI route. `path` is the program segment (`path + 10` in the
caller), `query = none` the `NULL` pointer. -/
def handle_cgi_request (env : Env) (path : List Byte) (query : Option (List Byte)) : Result :=
  let cgi_path := snprintf 256 (ascii "./cgi-like/" ++ cstr path)
  if (env.stat cgi_path).isNone || !env.access_x cgi_path then
    ⟨send_error (ascii "404 Not Found") (ascii "CGI program not found or not executable."), none⟩
  else if !env.pipe_ok then
    ⟨send_error (ascii "500 Internal Server Error") (ascii "Pipe creation failed."), none⟩
  else if !env.fork_ok then
    ⟨send_error (ascii "500 Internal Server Error") (ascii "Fork failed."), none⟩
  else
    let argv : List (List Byte) :=
      match query with
      | some q => [cgi_path, cstr q]
      | none => [cgi_path]
    let failed : List Byte :=
      send_error (ascii "500 Internal Server Error") (ascii "CGI execution failed.")
    match env.pipe_read cgi_path argv BUFFER_SIZE with
    | none => ⟨failed, some (cgi_path, argv)⟩
    | some bs =>
      let got := bs.take BUFFER_SIZE
      let output := read_into (uninit env.garbage BUFFER_SIZE) got
      let bytes_read := got.length
      if bytes_read > 0 then
        ⟨send_response (ascii "200 OK") (ascii "text/html") (some output) bytes_read,
          some (cgi_path, argv)⟩
      else ⟨failed, some (cgi_path, argv)⟩

/-! ## handle_client (lines 94-117) -/

/-- One `%Ns` conversion of `sscanf`: skip white space, then store up to `width`
non-space characters. Fails when the input ends first. Returns the token and the
unread input. -/
def scan_str (width : Nat) (input : List Byte) : Option (List Byte × List Byte) :=
  let s := input.dropWhile isspace
  let tok := (s.takeWhile (fun c => !isspace c)).take width
  if tok.isEmpty then none else some (tok, s.drop tok.length)

/-- The call `sscanf(buffer, "%15s %255s %15s", method, path, version)` on the string `buf`:
the return value and the three arrays (as strings; `[]` where nothing was stored).
The blanks of the format skip white space, which `%s` does as well. -/
def sscanf_request (buf : List Byte) : Int × List Byte × List Byte × List Byte :=
  match scan_str 15 buf with
  | none => (-1, [], [], [])
  | some (method, rest1) =>
    match scan_str 255 rest1 with
    | none => (1, method, [], [])
    | some (path, rest2) =>
      match scan_str 15 rest2 with
      | none => (2, method, path, [])
      | some (version, _) => (3, method, path, version)

/-- Lines 107-116 of `handle_client`: the routing on the parsed path. -/
def route (env : Env) (method path : List Byte) : Result :=
  if strncmp_eq path (ascii "/cgi-like/") 10 then
    let p := cstr path
    if p.contains 63 then
      -- `*query = 0; query++`
      handle_cgi_request env ((p.takeWhile (fun c => c != 63)).drop 10)
        (some ((p.dropWhile (fun c => c != 63)).drop 1))
    else
      handle_cgi_request env (p.drop 10) none
  else
    handle_file_request env method path

/-- What serving a connection does. -/
inductive Outcome where
  /-- The call to `recv` filled all of `buffer` and left no terminator: `sscanf` is handed an array
  that holds no string, and reads past its end. -/
  | undefined : Outcome
  | done (r : Result) : Outcome
deriving DecidableEq

/-- The function `handle_client`, where `data` is what `recv` finds on the socket (it stores
at most `sizeof(buffer)` bytes of it; nothing to store means `recv(...) <= 0`, and the
handler returns without a response). -/
def handle_client (env : Env) (data : List Byte) : Outcome :=
  let got := data.take BUFFER_SIZE
  if got.length = 0 then
    .done ⟨[], none⟩
  else if got.length = BUFFER_SIZE ∧ ¬ got.contains 0 then
    .undefined
  else
    -- `buffer` was zero-filled, so the string in it ends at the first NUL received or
    -- right after the received bytes
    let r := sscanf_request (cstr got)
    if r.1 ≠ 3 then
      .done ⟨send_error (ascii "400 Bad Request") (ascii "Malformed request line."), none⟩
    else
      -- `method`, `path`; `version` is not used
      .done (route env r.2.1 r.2.2.1)

/-! ## Notions used to state the properties -/

/-- White-space separated tokens of a text, as the request-line grammar reads them
(`fuel` bounds the number of tokens). -/
def tokens_fuel : Nat → List Byte → List (List Byte)
  | 0, _ => []
  | fuel + 1, s =>
    let s1 := s.dropWhile isspace
    if s1.isEmpty then []
    else s1.takeWhile (fun c => !isspace c) ::
      tokens_fuel fuel (s1.dropWhile (fun c => !isspace c))

/-- The white-space separated tokens of a text. -/
def tokens (s : List Byte) : List (List Byte) := tokens_fuel s.length s

/-- The first line of a text: the bytes before the first CR or LF. -/
def first_line (s : List Byte) : List Byte := s.takeWhile (fun c => c != 13 && c != 10)

/-- The text of a received request: the string `recv` leaves in `buffer`. -/
def request_text (data : List Byte) : List Byte := cstr (data.take BUFFER_SIZE)

/-- The request `data` reaches `sscanf` as a string (it is not empty and its text ends
inside `buffer`) and the three fields `method`, `path`, `version` are converted from it. -/
def Parses (data method path version : List Byte) : Prop :=
  data ≠ [] ∧ (data.length < BUFFER_SIZE ∨ 0 ∈ data.take BUFFER_SIZE) ∧
    sscanf_request (cstr (data.take BUFFER_SIZE)) = (3, method, path, version)

/-- The part of a request path that carries the query: `?` and the query, or nothing. -/
def query_part : Option (List Byte) → List Byte
  | some q => 63 :: q
  | none => []

/-! ## Concrete environments used in the examples -/

/-- The contents of the executable `./cgi-like/echo`. -/
def echo_script : List Byte := ascii "#!/bin/sh\nprintf %s $1\n"

/-- What `echo` writes: its argument, when it has one. -/
def echo_output (argv : List (List Byte)) : List Byte :=
  match argv with
  | [_, a] => a
  | _ => []

/-- A server root holding `./index.html` (the two bytes `hi`), `./notes..txt` (the two
bytes `ok`) and the executable `./cgi-like/echo`, which prints its argument; every system
call succeeds and the pipe read captures all of the program's output (up to `count`). -/
def demoEnv : Env where
  stat := fun p =>
    if p = ascii "./index.html" then some ⟨2, by decide⟩
    else if p = ascii "./notes..txt" then some ⟨2, by decide⟩
    else if p = ascii "./cgi-like/echo" then some ⟨23, by decide⟩
    else none
  access_x := fun p => p = ascii "./cgi-like/echo"
  open_ok := fun _ => true
  malloc_ok := fun _ => true
  garbage := fun _ => 0
  file_read := fun p n =>
    if p = ascii "./index.html" then (ascii "hi").take n
    else if p = ascii "./notes..txt" then (ascii "ok").take n
    else if p = ascii "./cgi-like/echo" then echo_script.take n
    else []
  pipe_ok := true
  fork_ok := true
  child_stdout := fun p argv => if p = ascii "./cgi-like/echo" then echo_output argv else []
  pipe_read := fun p argv n =>
    some ((if p = ascii "./cgi-like/echo" then echo_output argv else []).take n)

/-- As `demoEnv`, but `echo` writes its output one piece at a time and the parent's read
returns as soon as the first two bytes are in the pipe. -/
def slowEnv : Env :=
  { demoEnv with
    pipe_read := fun p argv n =>
      some (((if p = ascii "./cgi-like/echo" then echo_output argv else []).take 2).take n) }

/-- As `demoEnv`, with one more executable, `./bin/tool`, outside `./cgi-like/`; the file
system also reaches it as `./cgi-like/../bin/tool`. It writes `out`. -/
def toolEnv : Env :=
  { demoEnv with
    stat := fun p =>
      if p = ascii "./bin/tool" ∨ p = ascii "./cgi-like/../bin/tool" then some ⟨23, by decide⟩
      else demoEnv.stat p
    access_x := fun p =>
      decide (p = ascii "./bin/tool" ∨ p = ascii "./cgi-like/../bin/tool") || demoEnv.access_x p
    child_stdout := fun p argv =>
      if p = ascii "./bin/tool" ∨ p = ascii "./cgi-like/../bin/tool" then ascii "out"
      else demoEnv.child_stdout p argv
    pipe_read := fun p argv n =>
      if p = ascii "./bin/tool" ∨ p = ascii "./cgi-like/../bin/tool" then
        some ((ascii "out").take n)
      else demoEnv.pipe_read p argv n }

/-- A server root whose only CGI program has a name of 244 characters. -/
def longEnv : Env :=
  { demoEnv with
    stat := fun p =>
      if p = ascii "./cgi-like/" ++ List.replicate 244 97 then some ⟨23, by decide⟩ else none
    access_x := fun p => p = ascii "./cgi-like/" ++ List.replicate 244 97
    child_stdout := fun _ _ => ascii "x"
    pipe_read := fun _ _ n => some ((ascii "x").take n) }

/-! ## Strings and buffers -/

theorem cstr_of_nul_free {l : List Byte} (h : ∀ c ∈ l, c ≠ 0) : cstr l = l := by
  unfold cstr
  rw [List.takeWhile_eq_self_iff]
  intro x hx
  simpa using h x hx

theorem nul_free_cstr (l : List Byte) : ∀ c ∈ cstr l, c ≠ 0 := by
  intro c hc
  have h := List.mem_takeWhile_imp hc
  simpa using h

theorem snprintf_of_fit {n : Nat} {l : List Byte} (h : l.length < n) : snprintf n l = l := by
  unfold snprintf
  exact List.take_of_length_le (by omega)

theorem nul_free_append {a b : List Byte} (ha : ∀ c ∈ a, c ≠ 0) (hb : ∀ c ∈ b, c ≠ 0) :
    ∀ c ∈ a ++ b, c ≠ 0 := by
  intro c hc
  rcases List.mem_append.mp hc with h | h
  · exact ha c h
  · exact hb c h

theorem strlen_of_nul_free {l : List Byte} (h : ∀ c ∈ l, c ≠ 0) : strlen l = l.length := by
  unfold strlen
  rw [cstr_of_nul_free h]

/-! ## Scanning the request line -/

theorem dropWhile_head_neg {p : Byte → Bool} {s t : List Byte} {c : Byte}
    (h : s.dropWhile p = c :: t) : p c = false := by
  induction s with
  | nil => simp at h
  | cons a l ih =>
    by_cases ha : p a = true
    · rw [List.dropWhile_cons_of_pos ha] at h
      exact ih h
    · rw [List.dropWhile_cons_of_neg ha] at h
      injection h with h1 h2
      subst h1
      simpa using ha

theorem drop_length_takeWhile (p : Byte → Bool) (s : List Byte) :
    s.drop (s.takeWhile p).length = s.dropWhile p := by
  induction s with
  | nil => rfl
  | cons a l ih =>
    by_cases ha : p a = true
    · rw [List.takeWhile_cons_of_pos ha, List.dropWhile_cons_of_pos ha]
      simpa using ih
    · rw [List.takeWhile_cons_of_neg ha, List.dropWhile_cons_of_neg ha]
      rfl

theorem scan_str_some {w : Nat} {s tok rest : List Byte}
    (h : scan_str w s = some (tok, rest)) :
    tok ≠ [] ∧ tok.length ≤ w ∧ (∀ c ∈ tok, c ∈ s) ∧ (∀ c ∈ rest, c ∈ s) ∧
      tok = ((s.dropWhile isspace).takeWhile (fun c => !isspace c)).take w ∧
      rest = (s.dropWhile isspace).drop tok.length := by
  unfold scan_str at h
  simp only at h
  split at h
  · exact absurd h (by simp)
  · rename_i hne
    injection h with h
    injection h with h1 h2
    refine ⟨?_, ?_, ?_, ?_, h1.symm, ?_⟩
    · rw [← h1]
      intro h0
      exact hne (by simp [h0])
    · rw [← h1]
      exact List.length_take_le _ _
    · intro c hc
      rw [← h1] at hc
      exact (List.dropWhile_subset _) ((List.takeWhile_subset _) (List.mem_of_mem_take hc))
    · intro c hc
      rw [← h2] at hc
      exact (List.dropWhile_subset _) (List.mem_of_mem_drop hc)
    · rw [← h2, ← h1]

/-- What a return value of 3 from `sscanf` means for the three arrays. -/
theorem sscanf_three {buf : List Byte} (h : (sscanf_request buf).1 = 3) :
    ∃ m p v r1 r2 r3, sscanf_request buf = (3, m, p, v) ∧ scan_str 15 buf = some (m, r1) ∧
      scan_str 255 r1 = some (p, r2) ∧ scan_str 15 r2 = some (v, r3) := by
  unfold sscanf_request at h ⊢
  cases h1 : scan_str 15 buf with
  | none => simp [h1] at h
  | some a =>
    obtain ⟨m, r1⟩ := a
    cases h2 : scan_str 255 r1 with
    | none => simp [h1, h2] at h
    | some b =>
      obtain ⟨p, r2⟩ := b
      cases h3 : scan_str 15 r2 with
      | none => simp [h1, h2, h3] at h
      | some c =>
        obtain ⟨v, r3⟩ := c
        exact ⟨m, p, v, r1, r2, r3, by simp [h2, h3], rfl, h2, h3⟩

theorem sscanf_fields {buf m p v : List Byte} (h : sscanf_request buf = (3, m, p, v)) :
    (m ≠ [] ∧ m.length ≤ 15 ∧ ∀ c ∈ m, c ∈ buf ∧ isspace c = false) ∧
    (p ≠ [] ∧ p.length ≤ 255 ∧ ∀ c ∈ p, c ∈ buf ∧ isspace c = false) ∧
    (v ≠ [] ∧ v.length ≤ 15 ∧ ∀ c ∈ v, c ∈ buf ∧ isspace c = false) := by
  obtain ⟨m1, p1, v1, r1, r2, r3, he, h1, h2, h3⟩ := sscanf_three (by rw [h])
  rw [h] at he
  injection he with _ he
  injection he with hm he
  injection he with hp hv
  subst hm hp hv
  obtain ⟨a1, a2, a3, a4, a5, _⟩ := scan_str_some h1
  obtain ⟨b1, b2, b3, b4, b5, _⟩ := scan_str_some h2
  obtain ⟨c1, c2, c3, _, c5, _⟩ := scan_str_some h3
  have nsp : ∀ (w : Nat) (s : List Byte),
      ∀ c ∈ (s.takeWhile (fun c => !isspace c)).take w, isspace c = false := by
    intro w s c hc
    have := List.mem_takeWhile_imp (List.mem_of_mem_take hc)
    simpa using this
  refine ⟨⟨a1, a2, fun c hc => ⟨a3 c hc, ?_⟩⟩, ⟨b1, b2, fun c hc => ⟨a4 c (b3 c hc), ?_⟩⟩,
    ⟨c1, c2, fun c hc => ⟨a4 c (b4 c (c3 c hc)), ?_⟩⟩⟩
  · rw [a5] at hc
    exact nsp _ _ c hc
  · rw [b5] at hc
    exact nsp _ _ c hc
  · rw [c5] at hc
    exact nsp _ _ c hc

/-! ## Tokens of the request text -/

theorem token_rest_lt (s : List Byte) (h : (s.dropWhile isspace).isEmpty = false) :
    ((s.dropWhile isspace).dropWhile (fun c => !isspace c)).length < s.length := by
  cases hs : s.dropWhile isspace with
  | nil => simp [hs] at h
  | cons c t =>
    have hc : isspace c = false := dropWhile_head_neg hs
    have h1 : (c :: t).length ≤ s.length := by
      rw [← hs]
      exact (List.dropWhile_suffix _).length_le
    have h2 : ((c :: t).dropWhile (fun c => !isspace c)).length ≤ t.length := by
      rw [List.dropWhile_cons_of_pos (by simp [hc])]
      exact (List.dropWhile_suffix _).length_le
    simp only [List.length_cons] at h1
    omega

theorem tokens_fuel_enough : ∀ (n m : Nat) (s : List Byte), s.length ≤ n → s.length ≤ m →
    tokens_fuel n s = tokens_fuel m s := by
  intro n
  induction n with
  | zero =>
    intro m s hn _
    have hs : s = [] := List.length_eq_zero.mp (Nat.le_zero.mp hn)
    subst hs
    cases m with
    | zero => rfl
    | succ m => simp [tokens_fuel]
  | succ n ih =>
    intro m s hn hm
    cases m with
    | zero =>
      have hs : s = [] := List.length_eq_zero.mp (Nat.le_zero.mp hm)
      subst hs
      simp [tokens_fuel]
    | succ m =>
      simp only [tokens_fuel]
      by_cases he : (s.dropWhile isspace).isEmpty = true
      · simp only [he, if_true]
      · have he2 : (s.dropWhile isspace).isEmpty = false := by simpa using he
        have hlt := token_rest_lt s he2
        simp only [he, if_false]
        rw [ih m _ (by omega) (by omega)]

theorem tokens_eq (s : List Byte) :
    tokens s =
      if (s.dropWhile isspace).isEmpty then []
      else (s.dropWhile isspace).takeWhile (fun c => !isspace c) ::
        tokens ((s.dropWhile isspace).dropWhile (fun c => !isspace c)) := by
  unfold tokens
  cases s with
  | nil => simp [tokens_fuel]
  | cons a l =>
    simp only [List.length_cons, tokens_fuel]
    by_cases he : ((a :: l).dropWhile isspace).isEmpty = true
    · simp only [he, if_true]
    · have he2 : ((a :: l).dropWhile isspace).isEmpty = false := by simpa using he
      have hlt := token_rest_lt (a :: l) he2
      simp only [List.length_cons] at hlt
      simp only [he, if_false]
      rw [tokens_fuel_enough l.length _ _ (by omega) (le_refl _)]

theorem scan_str_tokens {w : Nat} {s tok rest : List Byte}
    (h : scan_str w s = some (tok, rest)) :
    ∃ t ts, tokens s = t :: ts ∧ tok = t.take w ∧ (t.length ≤ w → tokens rest = ts) := by
  obtain ⟨hne, _, _, _, htok, hrest⟩ := scan_str_some h
  have he : ¬ (s.dropWhile isspace).isEmpty = true := by
    intro he
    have : s.dropWhile isspace = [] := by simpa using he
    rw [this] at htok
    exact hne (by simpa using htok)
  refine ⟨(s.dropWhile isspace).takeWhile (fun c => !isspace c),
    tokens ((s.dropWhile isspace).dropWhile (fun c => !isspace c)), ?_, htok, ?_⟩
  · rw [tokens_eq s]
    simp [he]
  · intro hle
    rw [hrest, htok, List.take_of_length_le hle, drop_length_takeWhile]

theorem takeWhile_dropWhile_nil (p : Byte → Bool) (l : List Byte) :
    (l.dropWhile p).takeWhile p = [] := by
  cases h : l.dropWhile p with
  | nil => rfl
  | cons c t =>
    have hc : p c = false := dropWhile_head_neg h
    exact List.takeWhile_cons_of_neg (by simp [hc])

/-- A token longer than the width of its conversion is cut: the conversion stores its first
`w` characters and the next conversion starts with what is left of it. -/
theorem scan_str_overlong {w w2 : Nat} {s tok rest t : List Byte} {ts : List (List Byte)}
    (h : scan_str w s = some (tok, rest)) (ht : tokens s = t :: ts) (hlong : w < t.length)
    (hw2 : 0 < w2) :
    ∃ rest2, scan_str w2 rest = some ((t.drop w).take w2, rest2) := by
  obtain ⟨_, _, _, _, htok, hrest⟩ := scan_str_some h
  have he : (s.dropWhile isspace).isEmpty = false := by
    cases hs : (s.dropWhile isspace).isEmpty with
    | false => rfl
    | true =>
      rw [tokens_eq s] at ht
      simp [hs] at ht
  have ht2 : t = (s.dropWhile isspace).takeWhile (fun c => !isspace c) := by
    rw [tokens_eq s] at ht
    simp only [he, Bool.false_eq_true, if_false] at ht
    injection ht with h1 _
    exact h1.symm
  have hsplit : s.dropWhile isspace = t ++ (s.dropWhile isspace).dropWhile (fun c => !isspace c) := by
    rw [ht2]
    exact (List.takeWhile_append_dropWhile _ _).symm
  have hlen : tok.length = w := by
    rw [htok, ← ht2, List.length_take]
    omega
  have hrest2 : rest = t.drop w ++ (s.dropWhile isspace).dropWhile (fun c => !isspace c) := by
    rw [hrest, hlen, hsplit, List.drop_append_of_le_length (le_of_lt hlong), ← hsplit]
  have hnsp : ∀ c ∈ t.drop w, (!isspace c) = true := by
    intro c hc
    have hc2 : c ∈ t := List.mem_of_mem_drop hc
    rw [ht2] at hc2
    have h5 := List.mem_takeWhile_imp hc2
    simpa using h5
  cases hd : t.drop w with
  | nil =>
    have := congrArg List.length hd
    simp only [List.length_drop, List.length_nil] at this
    omega
  | cons c u =>
    have hc : (!isspace c) = true := hnsp c (by rw [hd]; exact List.mem_cons_self _ _)
    have hskip : rest.dropWhile isspace = rest := by
      rw [hrest2, hd, List.cons_append]
      exact List.dropWhile_cons_of_neg (by simpa using hc)
    have htake : rest.takeWhile (fun c => !isspace c) = t.drop w := by
      rw [hrest2, List.takeWhile_append_of_pos hnsp, takeWhile_dropWhile_nil,
        List.append_nil]
    refine ⟨rest.drop ((t.drop w).take w2).length, ?_⟩
    unfold scan_str
    simp only [hskip, htake]
    have hne : ((t.drop w).take w2).isEmpty = false := by
      rw [hd]
      cases w2 with
      | zero => omega
      | succ n => rfl
    rw [hd] at hne
    simp only [hd, hne, Bool.false_eq_true, if_false]

/-! ## send_response and send_error -/

theorem response_header_eq (status content_type : List Byte) (N : Nat)
    (hs : ∀ c ∈ status, c ≠ 0) (ht : ∀ c ∈ content_type, c ≠ 0) :
    response_header status content_type N =
      ascii "HTTP/1.0 " ++ status ++ ascii "\r\nContent-Type: " ++ content_type ++
        ascii "\r\nContent-Length: " ++ decimal N ++ ascii "\r\n\r\n" := by
  have e1 : ascii "\r\nContent-Type: " = ascii "\r\n" ++ ascii "Content-Type: " := by decide
  have e2 : ascii "\r\nContent-Length: " = ascii "\r\n" ++ ascii "Content-Length: " := by decide
  have e3 : ascii "\r\n\r\n" = ascii "\r\n" ++ ascii "\r\n" := by decide
  unfold response_header
  rw [cstr_of_nul_free hs, cstr_of_nul_free ht, e1, e2, e3]
  simp only [List.append_assoc]

theorem error_body_eq (status message : List Byte)
    (hs : ∀ c ∈ status, c ≠ 0) (hm : ∀ c ∈ message, c ≠ 0) :
    error_body status message =
      ascii "<html><body><h1>" ++ status ++ ascii "</h1><p>" ++ message ++
        ascii "</p></body></html>" := by
  unfold error_body
  rw [cstr_of_nul_free hs, cstr_of_nul_free hm]

theorem nul_free_error_body (status message : List Byte) :
    ∀ c ∈ error_body status message, c ≠ 0 := by
  unfold error_body
  refine nul_free_append (nul_free_append (nul_free_append (nul_free_append ?_ ?_) ?_) ?_) ?_
  · decide
  · exact nul_free_cstr status
  · decide
  · exact nul_free_cstr message
  · decide

theorem send_response_of_fit (status content_type : List Byte) (body : Option (List Byte))
    (N : Nat) (hs : ∀ c ∈ status, c ≠ 0) (ht : ∀ c ∈ content_type, c ≠ 0)
    (hfit : (ascii "HTTP/1.0 " ++ status ++ ascii "\r\nContent-Type: " ++ content_type ++
      ascii "\r\nContent-Length: " ++ decimal N ++ ascii "\r\n\r\n").length <
        RESPONSE_HEADER_SIZE) :
    send_response status content_type body N =
      (ascii "HTTP/1.0 " ++ status ++ ascii "\r\nContent-Type: " ++ content_type ++
        ascii "\r\nContent-Length: " ++ decimal N ++ ascii "\r\n\r\n") ++
      (match body with
       | some b => if 0 < N then b.take N else []
       | none => []) := by
  unfold send_response
  rw [← response_header_eq status content_type N hs ht] at hfit ⊢
  simp only [snprintf_of_fit hfit, gt_iff_lt]

/-! ## From the received bytes to the routing -/

theorem parses_nul_free {data m p v : List Byte} (h : Parses data m p v) :
    (∀ c ∈ m, c ≠ 0) ∧ (∀ c ∈ p, c ≠ 0) ∧ (∀ c ∈ v, c ≠ 0) := by
  obtain ⟨hm, hp, hv⟩ := sscanf_fields h.2.2
  exact ⟨fun c hc => nul_free_cstr _ c (hm.2.2 c hc).1,
    fun c hc => nul_free_cstr _ c (hp.2.2 c hc).1,
    fun c hc => nul_free_cstr _ c (hv.2.2 c hc).1⟩

theorem handle_client_intact (env : Env) {data : List Byte} (hne : data ≠ [])
    (hterm : data.length < BUFFER_SIZE ∨ 0 ∈ data.take BUFFER_SIZE) :
    handle_client env data =
      if (sscanf_request (cstr (data.take BUFFER_SIZE))).1 ≠ 3 then
        .done ⟨send_error (ascii "400 Bad Request") (ascii "Malformed request line."), none⟩
      else
        .done (route env (sscanf_request (cstr (data.take BUFFER_SIZE))).2.1
          (sscanf_request (cstr (data.take BUFFER_SIZE))).2.2.1) := by
  have hlen : (data.take BUFFER_SIZE).length ≠ 0 := by
    cases data with
    | nil => exact absurd rfl hne
    | cons a l => simp [BUFFER_SIZE]
  have hdef : ¬ ((data.take BUFFER_SIZE).length = BUFFER_SIZE ∧
      ¬ (data.take BUFFER_SIZE).contains 0 = true) := by
    rintro ⟨h1, h2⟩
    rcases hterm with h | h
    · rw [List.length_take] at h1
      omega
    · exact h2 (by simpa using h)
  unfold handle_client
  simp only [hlen, hdef, if_false]

theorem handle_client_of_parses (env : Env) {data m p v : List Byte} (h : Parses data m p v) :
    handle_client env data = .done (route env m p) := by
  rw [handle_client_intact env h.1 h.2.1, h.2.2]
  simp

/-! ## String tests of the handlers -/

theorem find_sub_iff (hay needle : List Byte) :
    find_sub hay needle = true ↔ needle <:+: hay := by
  induction hay with
  | nil => simp [find_sub]
  | cons c t ih =>
    rw [find_sub, List.infix_cons_iff, Bool.or_eq_true, ih, List.isPrefixOf_iff_prefix]

theorem strstr_dotdot {path : List Byte} (hp : ∀ c ∈ path, c ≠ 0) :
    strstr path (ascii "..") = true ↔ ascii ".." <:+: path := by
  unfold strstr
  rw [cstr_of_nul_free hp, cstr_of_nul_free (by decide), find_sub_iff]

theorem strncmp_cgi_iff {path : List Byte} (hp : ∀ c ∈ path, c ≠ 0) :
    strncmp_eq path (ascii "/cgi-like/") 10 = true ↔ ascii "/cgi-like/" <+: path := by
  unfold strncmp_eq
  rw [cstr_of_nul_free hp, List.prefix_iff_eq_take]
  have h1 : (cstr (ascii "/cgi-like/")).take 10 = ascii "/cgi-like/" := by decide
  have h2 : (ascii "/cgi-like/").length = 10 := by decide
  rw [h1, h2, beq_iff_eq]
  exact eq_comm

theorem strcmp_literal {method lit : List Byte} (hm : ∀ c ∈ method, c ≠ 0)
    (hl : ∀ c ∈ lit, c ≠ 0) : strcmp_eq method lit = true ↔ method = lit := by
  unfold strcmp_eq
  rw [cstr_of_nul_free hm, cstr_of_nul_free hl, beq_iff_eq]

theorem decimal_length_le (n e : Nat) (he : 0 < e) (hn : n < 10 ^ e) :
    (decimal n).length ≤ e := by
  unfold decimal ascii
  rw [List.length_map]
  exact Nat.repr_length n e he hn

/-- A `200 OK` response whose length field is a `size_t` always fits the header buffer. -/
theorem ok_response (body : Option (List Byte)) (N : Nat) (hN : N < 2 ^ 64) :
    send_response (ascii "200 OK") (ascii "text/html") body N =
      ascii "HTTP/1.0 200 OK\r\nContent-Type: text/html\r\nContent-Length: " ++ decimal N ++
        ascii "\r\n\r\n" ++
      (match body with
       | some b => if 0 < N then b.take N else []
       | none => []) := by
  have hd : (decimal N).length ≤ 20 :=
    decimal_length_le N 20 (by decide) (lt_of_lt_of_le hN (by norm_num))
  have e : ascii "HTTP/1.0 200 OK\r\nContent-Type: text/html\r\nContent-Length: " =
      ascii "HTTP/1.0 " ++ ascii "200 OK" ++ ascii "\r\nContent-Type: " ++ ascii "text/html" ++
        ascii "\r\nContent-Length: " := by decide
  rw [e]
  apply send_response_of_fit _ _ _ _ (by decide) (by decide)
  simp only [List.length_append]
  have l1 : (ascii "HTTP/1.0 ").length = 9 := by decide
  have l2 : (ascii "200 OK").length = 6 := by decide
  have l3 : (ascii "\r\nContent-Type: ").length = 16 := by decide
  have l4 : (ascii "text/html").length = 9 := by decide
  have l5 : (ascii "\r\nContent-Length: ").length = 18 := by decide
  have l6 : (ascii "\r\n\r\n").length = 4 := by decide
  rw [l1, l2, l3, l4, l5, l6]
  unfold RESPONSE_HEADER_SIZE
  omega

theorem read_into_full (garbage : Nat → Byte) (bytes : List Byte) :
    read_into (uninit garbage bytes.length) (bytes.take bytes.length) = bytes := by
  unfold read_into uninit
  simp

theorem read_into_take (garbage : Nat → Byte) (n : Nat) (got : List Byte)
    (h : got.length ≤ n) : (read_into (uninit garbage n) got).take got.length = got := by
  unfold read_into uninit
  simp only [List.length_map, List.length_range]
  rw [List.take_of_length_le h, List.take_left]

/-! ## The static file handler -/

theorem route_static (env : Env) {method path : List Byte} (hp : ∀ c ∈ path, c ≠ 0)
    (hcgi : ¬ ascii "/cgi-like/" <+: path) :
    route env method path = handle_file_request env method path := by
  have h : strncmp_eq path (ascii "/cgi-like/") 10 = false := by
    rw [← Bool.not_eq_true, strncmp_cgi_iff hp]
    exact hcgi
  unfold route
  simp [h]

theorem handle_file_request_dotdot (env : Env) {method path : List Byte}
    (hp : ∀ c ∈ path, c ≠ 0) (hdd : ascii ".." <:+: path) :
    handle_file_request env method path =
      ⟨send_error (ascii "403 Forbidden") (ascii "Access denied."), none⟩ := by
  unfold handle_file_request
  simp [(strstr_dotdot hp).mpr hdd]

theorem handle_file_request_found (env : Env) {method path : List Byte} (st : FileStat)
    (hm : ∀ c ∈ method, c ≠ 0) (hp : ∀ c ∈ path, c ≠ 0) (hdd : ¬ ascii ".." <:+: path)
    (hlen : path.length ≤ 254) (hstat : env.stat (ascii "." ++ path) = some st) :
    handle_file_request env method path =
      if method = ascii "HEAD" then
        ⟨send_response (ascii "200 OK") (ascii "text/html") none st.st_size, none⟩
      else if method = ascii "GET" then
        if env.open_ok (ascii "." ++ path) = false then
          ⟨send_error (ascii "500 Internal Server Error") (ascii "Failed to open file."), none⟩
        else
          ⟨send_response (ascii "200 OK") (ascii "text/html")
            (if env.malloc_ok st.st_size = true then
              some (read_into (uninit env.garbage st.st_size)
                ((env.file_read (ascii "." ++ path) st.st_size).take st.st_size))
             else none) st.st_size, none⟩
      else
        ⟨send_error (ascii "501 Not Implemented") (ascii "Method not supported."), none⟩ := by
  have h1 : strstr path (ascii "..") = false := by
    rw [← Bool.not_eq_true, strstr_dotdot hp]
    exact hdd
  have h2 : snprintf 256 (ascii "." ++ cstr path) = ascii "." ++ path := by
    rw [cstr_of_nul_free hp]
    apply snprintf_of_fit
    have : (ascii ".").length = 1 := by decide
    rw [List.length_append, this]
    omega
  have h3 : strcmp_eq method (ascii "HEAD") = decide (method = ascii "HEAD") := by
    rw [Bool.eq_iff_iff, strcmp_literal hm (by decide)]
    simp
  have h4 : strcmp_eq method (ascii "GET") = decide (method = ascii "GET") := by
    rw [Bool.eq_iff_iff, strcmp_literal hm (by decide)]
    simp
  unfold handle_file_request
  simp only [h1, h2, hstat, h3, h4]
  simp

/-! ## The CGI route -/

theorem contains_iff_mem (l : List Byte) (a : Byte) : l.contains a = true ↔ a ∈ l := by
  simp

theorem route_cgi (env : Env) (method prog : List Byte) (query : Option (List Byte))
    (hprog : ∀ c ∈ prog, c ≠ 0) (hq : ∀ c ∈ query_part query, c ≠ 0) (h63 : 63 ∉ prog) :
    route env method (ascii "/cgi-like/" ++ prog ++ query_part query) =
      handle_cgi_request env prog query := by
  have hpath : ∀ c ∈ ascii "/cgi-like/" ++ prog ++ query_part query, c ≠ 0 :=
    nul_free_append (nul_free_append (by decide) hprog) hq
  have hpre : strncmp_eq (ascii "/cgi-like/" ++ prog ++ query_part query)
      (ascii "/cgi-like/") 10 = true := by
    rw [strncmp_cgi_iff hpath, List.append_assoc]
    exact List.prefix_append _ _
  have hlen : (ascii "/cgi-like/").length = 10 := by decide
  have hlit : ∀ a ∈ ascii "/cgi-like/", (a != 63) = true := by decide
  have hall : ∀ a ∈ ascii "/cgi-like/" ++ prog, (a != 63) = true := by
    intro a ha
    rcases List.mem_append.mp ha with h | h
    · exact hlit a h
    · simp only [bne_iff_ne, ne_eq]
      rintro rfl
      exact h63 h
  unfold route
  simp only [hpre, if_true, cstr_of_nul_free hpath]
  cases query with
  | none =>
    have hno : (ascii "/cgi-like/" ++ prog ++ query_part none).contains 63 = false := by
      rw [← Bool.not_eq_true, contains_iff_mem]
      simp only [query_part, List.append_nil]
      intro hmem
      have := hall 63 hmem
      simp at this
    rw [hno]
    simp only [query_part, List.append_nil, List.drop_left' hlen]
    simp
  | some q =>
    have hyes : (ascii "/cgi-like/" ++ prog ++ query_part (some q)).contains 63 = true := by
      rw [contains_iff_mem]
      simp [query_part]
    rw [hyes]
    simp only [query_part, if_true]
    rw [List.takeWhile_append_of_pos hall, List.dropWhile_append_of_pos hall,
      List.takeWhile_cons_of_neg (by simp), List.dropWhile_cons_of_neg (by simp),
      List.append_nil, List.drop_left' hlen]
    rfl

theorem cgi_capture (env : Env) (cgi_path : List Byte) (argv : List (List Byte))
    (r : Option (List Byte)) :
    (match r with
      | none =>
        (⟨send_error (ascii "500 Internal Server Error") (ascii "CGI execution failed."),
          some (cgi_path, argv)⟩ : Result)
      | some bs =>
        if (bs.take BUFFER_SIZE).length > 0 then
          ⟨send_response (ascii "200 OK") (ascii "text/html")
            (some (read_into (uninit env.garbage BUFFER_SIZE) (bs.take BUFFER_SIZE)))
            (bs.take BUFFER_SIZE).length, some (cgi_path, argv)⟩
        else
          ⟨send_error (ascii "500 Internal Server Error") (ascii "CGI execution failed."),
            some (cgi_path, argv)⟩) =
    (match r with
      | none =>
        ⟨send_error (ascii "500 Internal Server Error") (ascii "CGI execution failed."),
          some (cgi_path, argv)⟩
      | some bs =>
        if 0 < (bs.take BUFFER_SIZE).length then
          ⟨ascii "HTTP/1.0 200 OK\r\nContent-Type: text/html\r\nContent-Length: " ++
            decimal (bs.take BUFFER_SIZE).length ++ ascii "\r\n\r\n" ++ bs.take BUFFER_SIZE,
            some (cgi_path, argv)⟩
        else
          ⟨send_error (ascii "500 Internal Server Error") (ascii "CGI execution failed."),
            some (cgi_path, argv)⟩) := by
  cases r with
  | none => rfl
  | some bs =>
    have hle : (bs.take BUFFER_SIZE).length ≤ BUFFER_SIZE := List.length_take_le _ _
    have hN : (bs.take BUFFER_SIZE).length < 2 ^ 64 :=
      lt_of_le_of_lt hle (by unfold BUFFER_SIZE; norm_num)
    by_cases hpos : 0 < (bs.take BUFFER_SIZE).length
    · simp only [gt_iff_lt, hpos, if_true]
      rw [ok_response _ _ hN]
      simp only [hpos, if_true, read_into_take env.garbage BUFFER_SIZE _ hle]
    · simp only [gt_iff_lt, hpos, if_false]

theorem handle_cgi_request_run (env : Env) (prog : List Byte) (query : Option (List Byte))
    (hprog : ∀ c ∈ prog, c ≠ 0) (hq : ∀ c ∈ query_part query, c ≠ 0)
    (hlen : prog.length ≤ 244)
    (hstat : (env.stat (ascii "./cgi-like/" ++ prog)).isSome = true)
    (hx : env.access_x (ascii "./cgi-like/" ++ prog) = true)
    (hpipe : env.pipe_ok = true) (hfork : env.fork_ok = true) :
    handle_cgi_request env prog query =
      match env.pipe_read (ascii "./cgi-like/" ++ prog)
          ((ascii "./cgi-like/" ++ prog) :: query.toList) BUFFER_SIZE with
      | none =>
        ⟨send_error (ascii "500 Internal Server Error") (ascii "CGI execution failed."),
          some (ascii "./cgi-like/" ++ prog, (ascii "./cgi-like/" ++ prog) :: query.toList)⟩
      | some bs =>
        if 0 < (bs.take BUFFER_SIZE).length then
          ⟨ascii "HTTP/1.0 200 OK\r\nContent-Type: text/html\r\nContent-Length: " ++
            decimal (bs.take BUFFER_SIZE).length ++ ascii "\r\n\r\n" ++ bs.take BUFFER_SIZE,
            some (ascii "./cgi-like/" ++ prog, (ascii "./cgi-like/" ++ prog) :: query.toList)⟩
        else
          ⟨send_error (ascii "500 Internal Server Error") (ascii "CGI execution failed."),
            some (ascii "./cgi-like/" ++ prog, (ascii "./cgi-like/" ++ prog) :: query.toList)⟩ := by
  have hpath : snprintf 256 (ascii "./cgi-like/" ++ cstr prog) = ascii "./cgi-like/" ++ prog := by
    rw [cstr_of_nul_free hprog]
    apply snprintf_of_fit
    have : (ascii "./cgi-like/").length = 11 := by decide
    rw [List.length_append, this]
    omega
  have hnone : (env.stat (ascii "./cgi-like/" ++ prog)).isNone = false := by
    cases h : env.stat (ascii "./cgi-like/" ++ prog) with
    | none => simp [h] at hstat
    | some st => rfl
  rw [← cgi_capture env]
  cases query with
  | none =>
    unfold handle_cgi_request
    simp only [hpath, hnone, hx, hpipe, hfork, Option.toList]
    rfl
  | some q =>
    have hq2 : ∀ c ∈ q, c ≠ 0 := fun c hc => hq c (by simp [query_part, hc])
    unfold handle_cgi_request
    simp only [hpath, hnone, hx, hpipe, hfork, Option.toList, cstr_of_nul_free hq2]
    rfl

/-- Routing on a parsed path: a path under `/cgi-like/` goes to the CGI handler, split at
its first `?`; every other path goes to the file handler unchanged. -/
theorem route_split (env : Env) (method path : List Byte) (hp : ∀ c ∈ path, c ≠ 0) :
    (ascii "/cgi-like/" <+: path →
      ∃ prog query, path = ascii "/cgi-like/" ++ prog ++ query_part query ∧ 63 ∉ prog ∧
        (query = none ↔ 63 ∉ path) ∧
        route env method path = handle_cgi_request env prog query) ∧
    (¬ ascii "/cgi-like/" <+: path →
      route env method path = handle_file_request env method path) := by
  refine ⟨?_, route_static env hp⟩
  rintro ⟨r, rfl⟩
  have hr : ∀ c ∈ r, c ≠ 0 := fun c hc => hp c (List.mem_append_right _ hc)
  have hpre : (63 : Byte) ∉ ascii "/cgi-like/" := by decide
  have hsplit : r.takeWhile (fun c => c != 63) ++ r.dropWhile (fun c => c != 63) = r :=
    List.takeWhile_append_dropWhile _ _
  have hprog : ∀ c ∈ r.takeWhile (fun c => c != 63), c ≠ 0 :=
    fun c hc => hr c (List.takeWhile_subset _ hc)
  have h63 : (63 : Byte) ∉ r.takeWhile (fun c => c != 63) := by
    intro h
    have := List.mem_takeWhile_imp h
    simp at this
  cases hd : r.dropWhile (fun c => c != 63) with
  | nil =>
    rw [hd, List.append_nil] at hsplit
    have hno : (63 : Byte) ∉ r := by
      rw [← hsplit]
      exact h63
    refine ⟨r, none, by simp [query_part], hno, ?_, ?_⟩
    · simp [hno, hpre]
    · have h := route_cgi env method r none hr (by simp [query_part]) hno
      simpa [query_part] using h
  | cons c t =>
    have hc : c = 63 := by
      have := dropWhile_head_neg hd
      simpa using this
    subst hc
    rw [hd] at hsplit
    have hq : ∀ c ∈ query_part (some t), c ≠ 0 := by
      intro c hc
      apply hr c
      rw [← hsplit]
      exact List.mem_append_right _ (by simpa [query_part] using hc)
    refine ⟨r.takeWhile (fun c => c != 63), some t, ?_, h63, ?_, ?_⟩
    · simp only [query_part, List.append_assoc, hsplit]
    · have hin : (63 : Byte) ∈ r := by
        rw [← hsplit]
        simp
      simp [hin]
    · have h := route_cgi env method _ (some t) hprog hq h63
      simp only [query_part, List.append_assoc, hsplit] at h
      exact h

/-- The program `handle_cgi_request` launches, when it launches one: for a program segment
of at most 244 characters it is `./cgi-like/` followed by the segment, with the query as
only argument, or without argument when there is no query. -/
theorem cgi_exec_args (env : Env) (prog : List Byte) (query : Option (List Byte))
    (hprog : ∀ c ∈ prog, c ≠ 0) (hq : ∀ c ∈ query_part query, c ≠ 0)
    (hlen : prog.length ≤ 244) :
    (handle_cgi_request env prog query).exec = none ∨
    (handle_cgi_request env prog query).exec =
      some (ascii "./cgi-like/" ++ prog, (ascii "./cgi-like/" ++ prog) :: query.toList) := by
  by_cases h : (env.stat (ascii "./cgi-like/" ++ prog)).isSome = true ∧
      env.access_x (ascii "./cgi-like/" ++ prog) = true ∧ env.pipe_ok = true ∧
      env.fork_ok = true
  · obtain ⟨a, b, c, d⟩ := h
    right
    rw [handle_cgi_request_run env prog query hprog hq hlen a b c d]
    cases env.pipe_read (ascii "./cgi-like/" ++ prog)
        ((ascii "./cgi-like/" ++ prog) :: query.toList) BUFFER_SIZE with
    | none => rfl
    | some bs =>
      simp only
      split <;> rfl
  · left
    have hpath : snprintf 256 (ascii "./cgi-like/" ++ cstr prog) = ascii "./cgi-like/" ++ prog := by
      rw [cstr_of_nul_free hprog]
      apply snprintf_of_fit
      have : (ascii "./cgi-like/").length = 11 := by decide
      rw [List.length_append, this]
      omega
    unfold handle_cgi_request
    simp only [hpath]
    by_cases h1 : ((env.stat (ascii "./cgi-like/" ++ prog)).isNone ||
        !env.access_x (ascii "./cgi-like/" ++ prog)) = true
    · simp only [h1, if_true]
    · by_cases h2 : (!env.pipe_ok) = true
      · simp [h1, h2]
      · by_cases h3 : (!env.fork_ok) = true
        · simp [h1, h2, h3]
        · exfalso
          apply h
          simp only [Bool.or_eq_true, Bool.not_eq_true', not_or, Bool.not_eq_false,
            Option.isNone_iff_eq_none, Bool.not_eq_true] at h1 h2 h3
          refine ⟨?_, h1.2, h2, h3⟩
          cases hs : env.stat (ascii "./cgi-like/" ++ prog) with
          | none => exact absurd hs h1.1
          | some st => rfl

/-- C2. When status and content type are C strings and the formatted header block fits the
512-byte buffer, `send_response` sends exactly
`HTTP/1.0 <status>\r\nContent-Type: <type>\r\nContent-Length: <N>\r\n\r\n`, followed by the first
`N` bytes of the body when a body is given and `N > 0`, and by nothing otherwise; when a body
(holding at least `N` bytes) is sent, exactly `N` bytes follow the header block. -/
theorem send_response_wire (status content_type : List Byte) (body : Option (List Byte))
    (N : Nat) (hs : ∀ c ∈ status, c ≠ 0) (ht : ∀ c ∈ content_type, c ≠ 0)
    (hfit : (ascii "HTTP/1.0 " ++ status ++ ascii "\r\nContent-Type: " ++ content_type ++
      ascii "\r\nContent-Length: " ++ decimal N ++ ascii "\r\n\r\n").length <
        RESPONSE_HEADER_SIZE) :
    send_response status content_type body N =
      (ascii "HTTP/1.0 " ++ status ++ ascii "\r\nContent-Type: " ++ content_type ++
        ascii "\r\nContent-Length: " ++ decimal N ++ ascii "\r\n\r\n") ++
      (match body with
       | some b => if 0 < N then b.take N else []
       | none => []) ∧
    (∀ b, body = some b → 0 < N → N ≤ b.length →
      ((send_response status content_type body N).drop
        (ascii "HTTP/1.0 " ++ status ++ ascii "\r\nContent-Type: " ++ content_type ++
          ascii "\r\nContent-Length: " ++ decimal N ++ ascii "\r\n\r\n").length).length = N) := by
  have hsend := send_response_of_fit status content_type body N hs ht hfit
  refine ⟨hsend, ?_⟩
  intro b hb hN hlen
  rw [hsend, hb, List.drop_left]
  simp [hN, hlen]

/-- The example of C2: the header block of a 200 response with a two-byte body. -/
theorem send_response_wire_witness :
    send_response (ascii "200 OK") (ascii "text/html") (some (ascii "hi")) 2 =
      (ascii "HTTP/1.0 " ++ ascii "200 OK" ++ ascii "\r\nContent-Type: " ++ ascii "text/html" ++
        ascii "\r\nContent-Length: " ++ decimal 2 ++ ascii "\r\n\r\n") ++
      (match some (ascii "hi") with
       | some b => if 0 < 2 then b.take 2 else []
       | none => []) ∧
    (∀ b, some (ascii "hi") = some b → 0 < 2 → 2 ≤ b.length →
      ((send_response (ascii "200 OK") (ascii "text/html") (some (ascii "hi")) 2).drop
        (ascii "HTTP/1.0 " ++ ascii "200 OK" ++ ascii "\r\nContent-Type: " ++ ascii "text/html" ++
          ascii "\r\nContent-Length: " ++ decimal 2 ++ ascii "\r\n\r\n").length).length = 2) :=
  send_response_wire (ascii "200 OK") (ascii "text/html") (some (ascii "hi")) 2
    (by decide) (by decide) (by decide)

/-- C10 as amended. When status and message are C strings, the formatted body fits the
1024-byte body buffer and the header block fits the 512-byte header buffer, `send_error`
sends the status line, `Content-Type: text/html`, `Content-Length` equal to the length of
`<html><body><h1>{status}</h1><p>{message}</p></body></html>`, and exactly that body. -/
theorem send_error_wire (status message body : List Byte)
    (hs : ∀ c ∈ status, c ≠ 0) (hm : ∀ c ∈ message, c ≠ 0)
    (hb : body = ascii "<html><body><h1>" ++ status ++ ascii "</h1><p>" ++ message ++
      ascii "</p></body></html>")
    (hbody : body.length < BUFFER_SIZE)
    (hhdr : (ascii "HTTP/1.0 " ++ status ++ ascii "\r\nContent-Type: text/html" ++
      ascii "\r\nContent-Length: " ++ decimal body.length ++ ascii "\r\n\r\n").length <
        RESPONSE_HEADER_SIZE) :
    send_error status message =
      ascii "HTTP/1.0 " ++ status ++ ascii "\r\nContent-Type: text/html" ++
        ascii "\r\nContent-Length: " ++ decimal body.length ++ ascii "\r\n\r\n" ++ body := by
  have hbe : error_body status message = body := by rw [hb, error_body_eq status message hs hm]
  have hnf : ∀ c ∈ body, c ≠ 0 := hbe ▸ nul_free_error_body status message
  have hpos : 0 < body.length := by
    rw [hb]
    simp only [List.length_append]
    have : (ascii "<html><body><h1>").length = 16 := by decide
    omega
  have e : ascii "\r\nContent-Type: text/html" = ascii "\r\nContent-Type: " ++ ascii "text/html" := by
    decide
  rw [e] at hhdr ⊢
  simp only [← List.append_assoc] at hhdr ⊢
  unfold send_error
  simp only [hbe, snprintf_of_fit hbody, strlen_of_nul_free hnf]
  have h := send_response_of_fit status (ascii "text/html") (some body) body.length hs
    (by decide) hhdr
  rw [h]
  simp [hpos]


/-- The example of C10: the response for a missing file. -/
theorem send_error_wire_witness :
    send_error (ascii "404 Not Found") (ascii "File not found.") =
      ascii "HTTP/1.0 404 Not Found\r\nContent-Type: text/html\r\nContent-Length: 70\r\n\r\n<html><body><h1>404 Not Found</h1><p>File not found.</p></body></html>" :=
  (send_error_wire (ascii "404 Not Found") (ascii "File not found.")
    (ascii "<html><body><h1>404 Not Found</h1><p>File not found.</p></body></html>")
    (by decide) (by decide) (by decide) (by decide) (by decide)).trans (by decide)

/-- C10 fails as stated: for a status of 460 characters and an empty message the body
(502 bytes) fits the 1024-byte buffer, but the header block does not fit its 512-byte
buffer and is cut after `Content-Length:`, so the response is not the framed one. -/
theorem send_error_long_status :
    (ascii "<html><body><h1>" ++ List.replicate 460 65 ++ ascii "</h1><p>" ++ [] ++
      ascii "</p></body></html>").length < BUFFER_SIZE ∧
    send_error (List.replicate 460 65) [] ≠
      ascii "HTTP/1.0 " ++ List.replicate 460 65 ++ ascii "\r\nContent-Type: text/html" ++
        ascii "\r\nContent-Length: " ++ decimal 502 ++ ascii "\r\n\r\n" ++
        (ascii "<html><body><h1>" ++ List.replicate 460 65 ++ ascii "</h1><p>" ++ [] ++
          ascii "</p></body></html>") ∧
    send_error (List.replicate 460 65) [] =
      ascii "HTTP/1.0 " ++ List.replicate 460 65 ++ ascii "\r\nContent-Type: text/html" ++
        ascii "\r\nContent-Length:" ++
        (ascii "<html><body><h1>" ++ List.replicate 460 65 ++ ascii "</h1><p>" ++ [] ++
          ascii "</p></body></html>") := by
  refine ⟨by decide, by decide, by decide⟩

/-! ## Static files: GET, HEAD, other methods -/

/-- C1 as amended. For every request whose parsed method is GET and whose path does not
begin with `/cgi-like/`, does not contain `..`, is at most 254 characters long and names an
existing file F at `.` followed by the path, when the file can be opened and is read in
full, `handle_client` sends `200 OK`, `Content-Type: text/html`, a `Content-Length` equal to
the size of F and a body equal to the bytes of F (no body byte for an empty file). -/
theorem get_existing_file (env : Env) (data path version bytes : List Byte) (st : FileStat)
    (hparse : Parses data (ascii "GET") path version)
    (hcgi : ¬ ascii "/cgi-like/" <+: path) (hdd : ¬ ascii ".." <:+: path)
    (hlen : path.length ≤ 254)
    (hstat : env.stat (ascii "." ++ path) = some st) (hsize : st.st_size = bytes.length)
    (hopen : env.open_ok (ascii "." ++ path) = true)
    (hmalloc : bytes ≠ [] → env.malloc_ok bytes.length = true)
    (hread : env.file_read (ascii "." ++ path) bytes.length = bytes) :
    handle_client env data =
      .done ⟨ascii "HTTP/1.0 200 OK\r\nContent-Type: text/html\r\nContent-Length: " ++
        decimal bytes.length ++ ascii "\r\n\r\n" ++ bytes, none⟩ := by
  obtain ⟨hm, hp, _⟩ := parses_nul_free hparse
  have hN : st.st_size < 2 ^ 64 := lt_trans st.st_size_lt (by norm_num)
  rw [handle_client_of_parses env hparse, route_static env hp hcgi,
    handle_file_request_found env st hm hp hdd hlen hstat]
  have hne : ascii "GET" ≠ ascii "HEAD" := by decide
  rw [hsize] at hN
  simp only [hne, if_false, if_true, hopen, hsize, hread, read_into_full]
  rw [ok_response _ _ hN]
  by_cases hb : bytes = []
  · subst hb
    by_cases h0 : env.malloc_ok 0 = true <;> simp [h0]
  · have hpos : 0 < bytes.length := List.length_pos.mpr hb
    simp [hmalloc hb, hpos]

/-- The example of C1: `GET /index.html HTTP/1.0` where `index.html` holds `hi`. -/
theorem get_existing_file_witness :
    handle_client demoEnv (ascii "GET /index.html HTTP/1.0\r\n\r\n") =
      .done ⟨ascii "HTTP/1.0 200 OK\r\nContent-Type: text/html\r\nContent-Length: 2\r\n\r\nhi",
        none⟩ :=
  (get_existing_file demoEnv (ascii "GET /index.html HTTP/1.0\r\n\r\n") (ascii "/index.html")
    (ascii "HTTP/1.0") (ascii "hi") ⟨2, by decide⟩
    ⟨by decide, by decide, by decide⟩ (by decide) (by decide) (by decide) (by decide)
    (by decide) (by decide) (by decide) (by decide)).trans (by decide)

/-- C1 fails as stated: `./notes..txt` exists, can be opened and read in full, yet
`GET /notes..txt` is answered `403 Forbidden`, not with the file. -/
theorem get_existing_file_dotdot_name :
    Parses (ascii "GET /notes..txt HTTP/1.0\r\n\r\n") (ascii "GET") (ascii "/notes..txt")
      (ascii "HTTP/1.0") ∧
    (demoEnv.stat (ascii "." ++ ascii "/notes..txt")).map FileStat.st_size = some 2 ∧
    demoEnv.open_ok (ascii "." ++ ascii "/notes..txt") = true ∧
    demoEnv.file_read (ascii "." ++ ascii "/notes..txt") 2 = ascii "ok" ∧
    handle_client demoEnv (ascii "GET /notes..txt HTTP/1.0\r\n\r\n") =
      .done ⟨send_error (ascii "403 Forbidden") (ascii "Access denied."), none⟩ ∧
    handle_client demoEnv (ascii "GET /notes..txt HTTP/1.0\r\n\r\n") ≠
      .done ⟨ascii "HTTP/1.0 200 OK\r\nContent-Type: text/html\r\nContent-Length: 2\r\n\r\nok",
        none⟩ := by
  refine ⟨⟨by decide, by decide, by decide⟩, by decide, by decide, by decide, by decide,
    by decide⟩

/-- C6 as amended. For every request whose parsed method is HEAD and whose path does not
begin with `/cgi-like/`, does not contain `..`, is at most 254 characters long and names an
existing file F at `.` followed by the path, the response is `200 OK` with `Content-Length`
equal to the size of F, and nothing is sent after the header block. -/
theorem head_existing_file (env : Env) (data path version : List Byte) (st : FileStat)
    (hparse : Parses data (ascii "HEAD") path version)
    (hcgi : ¬ ascii "/cgi-like/" <+: path) (hdd : ¬ ascii ".." <:+: path)
    (hlen : path.length ≤ 254)
    (hstat : env.stat (ascii "." ++ path) = some st) :
    handle_client env data =
      .done ⟨ascii "HTTP/1.0 200 OK\r\nContent-Type: text/html\r\nContent-Length: " ++
        decimal st.st_size ++ ascii "\r\n\r\n", none⟩ := by
  obtain ⟨hm, hp, _⟩ := parses_nul_free hparse
  have hN : st.st_size < 2 ^ 64 := lt_trans st.st_size_lt (by norm_num)
  rw [handle_client_of_parses env hparse, route_static env hp hcgi,
    handle_file_request_found env st hm hp hdd hlen hstat, ok_response _ _ hN]
  simp

/-- An instance of C6: `HEAD /index.html` for the two-byte file sends the header block only. -/
theorem head_existing_file_witness :
    handle_client demoEnv (ascii "HEAD /index.html HTTP/1.0\r\n\r\n") =
      .done ⟨ascii "HTTP/1.0 200 OK\r\nContent-Type: text/html\r\nContent-Length: 2\r\n\r\n",
        none⟩ :=
  (head_existing_file demoEnv (ascii "HEAD /index.html HTTP/1.0\r\n\r\n") (ascii "/index.html")
    (ascii "HTTP/1.0") ⟨2, by decide⟩
    ⟨by decide, by decide, by decide⟩ (by decide) (by decide) (by decide) (by decide)).trans
    (by decide)

/-- C6 fails as stated: `./cgi-like/echo` is an existing file under the server root, yet
`HEAD /cgi-like/echo` runs it (here without output, hence a 500) instead of reporting its
size. -/
theorem head_existing_file_under_cgi :
    Parses (ascii "HEAD /cgi-like/echo HTTP/1.0\r\n\r\n") (ascii "HEAD") (ascii "/cgi-like/echo")
      (ascii "HTTP/1.0") ∧
    (demoEnv.stat (ascii "." ++ ascii "/cgi-like/echo")).map FileStat.st_size = some 23 ∧
    handle_client demoEnv (ascii "HEAD /cgi-like/echo HTTP/1.0\r\n\r\n") =
      .done ⟨send_error (ascii "500 Internal Server Error") (ascii "CGI execution failed."),
        some (ascii "./cgi-like/echo", [ascii "./cgi-like/echo"])⟩ ∧
    handle_client demoEnv (ascii "HEAD /cgi-like/echo HTTP/1.0\r\n\r\n") ≠
      .done ⟨ascii "HTTP/1.0 200 OK\r\nContent-Type: text/html\r\nContent-Length: 23\r\n\r\n",
        none⟩ := by
  refine ⟨⟨by decide, by decide, by decide⟩, by decide, by decide, by decide⟩

/-- C5 as amended. For every well-formed request whose path does not begin with
`/cgi-like/`, does not contain `..`, is at most 254 characters long and names an existing
file, and whose method is neither GET nor HEAD, the response is `501 Not Implemented`. -/
theorem other_method_not_implemented (env : Env) (data method path version : List Byte)
    (st : FileStat) (hparse : Parses data method path version)
    (hcgi : ¬ ascii "/cgi-like/" <+: path) (hdd : ¬ ascii ".." <:+: path)
    (hlen : path.length ≤ 254)
    (hstat : env.stat (ascii "." ++ path) = some st)
    (hget : method ≠ ascii "GET") (hhead : method ≠ ascii "HEAD") :
    handle_client env data =
      .done ⟨send_error (ascii "501 Not Implemented") (ascii "Method not supported."), none⟩ ∧
    ascii "HTTP/1.0 501 Not Implemented\r\n" <+:
      send_error (ascii "501 Not Implemented") (ascii "Method not supported.") := by
  obtain ⟨hm, hp, _⟩ := parses_nul_free hparse
  refine ⟨?_, by decide⟩
  rw [handle_client_of_parses env hparse, route_static env hp hcgi,
    handle_file_request_found env st hm hp hdd hlen hstat]
  simp [hget, hhead]

/-- An instance of C5: `POST /index.html` is answered 501. -/
theorem other_method_not_implemented_witness :
    handle_client demoEnv (ascii "POST /index.html HTTP/1.0\r\n\r\n") =
      .done ⟨send_error (ascii "501 Not Implemented") (ascii "Method not supported."), none⟩ ∧
    ascii "HTTP/1.0 501 Not Implemented\r\n" <+:
      send_error (ascii "501 Not Implemented") (ascii "Method not supported.") :=
  other_method_not_implemented demoEnv (ascii "POST /index.html HTTP/1.0\r\n\r\n")
    (ascii "POST") (ascii "/index.html") (ascii "HTTP/1.0") ⟨2, by decide⟩
    ⟨by decide, by decide, by decide⟩ (by decide) (by decide) (by decide) (by decide)
    (by decide) (by decide)

/-- C5 fails as stated: `POST /missing.html`, to a path outside `/cgi-like/` with a method
that is neither GET nor HEAD, is answered `404 Not Found` because the file is looked up
before the method is. -/
theorem other_method_missing_file :
    Parses (ascii "POST /missing.html HTTP/1.0\r\n\r\n") (ascii "POST") (ascii "/missing.html")
      (ascii "HTTP/1.0") ∧
    ¬ ascii "/cgi-like/" <+: ascii "/missing.html" ∧
    handle_client demoEnv (ascii "POST /missing.html HTTP/1.0\r\n\r\n") =
      .done ⟨send_error (ascii "404 Not Found") (ascii "File not found."), none⟩ ∧
    ascii "HTTP/1.0 404 Not Found\r\n" <+:
      send_error (ascii "404 Not Found") (ascii "File not found.") ∧
    ¬ ascii "HTTP/1.0 501 Not Implemented\r\n" <+:
      send_error (ascii "404 Not Found") (ascii "File not found.") := by
  refine ⟨⟨by decide, by decide, by decide⟩, by decide, by decide, by decide, by decide⟩


/-! ## CGI programs -/

/-- C8 as amended. For every request to `/cgi-like/<prog>[?<query>]` with `<prog>` of at
most 244 characters, where `./cgi-like/<prog>` exists and is executable and `pipe` and
`fork` succeed, the response is decided by the single read of the pipe, which returns the
first `k` bytes of the program's output `out` that are in the pipe at that moment (cut to
1024): when that is at least one byte the response is `200 OK`, `text/html`, with
`Content-Length` and body those `min k 1024` first bytes; when it is none the response is
`500 Internal Server Error`. When the whole output, or 1024 bytes of it, is in the pipe at
the read, the body is the first `min 1024 (length out)` bytes written. The program is
launched with the query as its only argument. -/
theorem cgi_response (env : Env) (data method prog version cgi out : List Byte)
    (query : Option (List Byte)) (k : Nat)
    (hparse : Parses data method (ascii "/cgi-like/" ++ prog ++ query_part query) version)
    (h63 : 63 ∉ prog) (hlen : prog.length ≤ 244)
    (hcgi : cgi = ascii "./cgi-like/" ++ prog)
    (hstat : (env.stat cgi).isSome = true) (hx : env.access_x cgi = true)
    (hpipe : env.pipe_ok = true) (hfork : env.fork_ok = true)
    (hout : out = env.child_stdout cgi (cgi :: query.toList))
    (hread : env.pipe_read cgi (cgi :: query.toList) BUFFER_SIZE = some (out.take k)) :
    handle_client env data =
      .done ⟨if out = [] ∨ k = 0 then
          send_error (ascii "500 Internal Server Error") (ascii "CGI execution failed.")
        else
          ascii "HTTP/1.0 200 OK\r\nContent-Type: text/html\r\nContent-Length: " ++
            decimal (min (min k BUFFER_SIZE) out.length) ++ ascii "\r\n\r\n" ++
            out.take (min k BUFFER_SIZE),
        some (cgi, cgi :: query.toList)⟩ ∧
    (min BUFFER_SIZE out.length ≤ k →
      out.take (min k BUFFER_SIZE) = out.take BUFFER_SIZE ∧
      min (min k BUFFER_SIZE) out.length = min BUFFER_SIZE out.length) := by
  obtain ⟨_, hp, _⟩ := parses_nul_free hparse
  have hprog : ∀ c ∈ prog, c ≠ 0 := fun c hc => hp c (by simp [hc])
  have hq : ∀ c ∈ query_part query, c ≠ 0 := fun c hc => hp c (by simp [hc])
  subst hcgi
  constructor
  · rw [handle_client_of_parses env hparse, route_cgi env _ _ _ hprog hq h63,
      handle_cgi_request_run env prog query hprog hq hlen hstat hx hpipe hfork, hread]
    simp only [List.take_take, List.length_take, Nat.min_comm BUFFER_SIZE k]
    by_cases h0 : out = [] ∨ k = 0
    · have hz : ¬ 0 < min (min k BUFFER_SIZE) out.length := by
        rcases h0 with h | h
        · simp [h]
        · simp [h]
      simp only [h0, hz, if_true, if_false]
    · have hz : 0 < min (min k BUFFER_SIZE) out.length := by
        have h1 : 0 < out.length := List.length_pos.mpr (fun h => h0 (Or.inl h))
        have h2 : 0 < k := Nat.pos_of_ne_zero (fun h => h0 (Or.inr h))
        have h3 : 0 < BUFFER_SIZE := by decide
        omega
      simp only [h0, hz, if_true, if_false]
  · intro hk
    have hB : BUFFER_SIZE = 1024 := rfl
    by_cases h1 : BUFFER_SIZE ≤ k
    · rw [Nat.min_eq_right h1]
      exact ⟨rfl, rfl⟩
    · have h2 : out.length ≤ k := by omega
      have h3 : out.length ≤ min k BUFFER_SIZE := by omega
      refine ⟨?_, by omega⟩
      rw [List.take_of_length_le h3, List.take_of_length_le (by omega)]

/-- The example of C8: `GET /cgi-like/echo?hello HTTP/1.0`, where `echo` prints its
argument, is answered 200 with body `hello`, and `echo` got `hello` as only argument. -/
theorem cgi_response_witness :
    handle_client demoEnv (ascii "GET /cgi-like/echo?hello HTTP/1.0\r\n\r\n") =
      .done ⟨ascii "HTTP/1.0 200 OK\r\nContent-Type: text/html\r\nContent-Length: 5\r\n\r\nhello",
        some (ascii "./cgi-like/echo", [ascii "./cgi-like/echo", ascii "hello"])⟩ :=
  (cgi_response demoEnv (ascii "GET /cgi-like/echo?hello HTTP/1.0\r\n\r\n") (ascii "GET")
    (ascii "echo") (ascii "HTTP/1.0") (ascii "./cgi-like/echo") (ascii "hello")
    (some (ascii "hello")) 1024
    ⟨by decide, by decide, by decide⟩ (by decide) (by decide) (by decide) (by decide)
    (by decide) (by decide) (by decide) (by decide) (by decide)).1.trans (by decide)

/-- C8 fails as stated: `echo` exists, is executable, `pipe` and `fork` succeed and the
program writes the five bytes `hello`, but the single read returns when two of them are in
the pipe; the response carries `he` with `Content-Length: 2`, not the first
`min 1024 5` bytes written. -/
theorem cgi_response_short_read :
    Parses (ascii "GET /cgi-like/echo?hello HTTP/1.0\r\n\r\n") (ascii "GET")
      (ascii "/cgi-like/echo?hello") (ascii "HTTP/1.0") ∧
    (slowEnv.stat (ascii "./cgi-like/echo")).isSome = true ∧
    slowEnv.access_x (ascii "./cgi-like/echo") = true ∧
    slowEnv.pipe_ok = true ∧ slowEnv.fork_ok = true ∧
    slowEnv.child_stdout (ascii "./cgi-like/echo") [ascii "./cgi-like/echo", ascii "hello"] =
      ascii "hello" ∧
    handle_client slowEnv (ascii "GET /cgi-like/echo?hello HTTP/1.0\r\n\r\n") =
      .done ⟨ascii "HTTP/1.0 200 OK\r\nContent-Type: text/html\r\nContent-Length: 2\r\n\r\nhe",
        some (ascii "./cgi-like/echo", [ascii "./cgi-like/echo", ascii "hello"])⟩ ∧
    handle_client slowEnv (ascii "GET /cgi-like/echo?hello HTTP/1.0\r\n\r\n") ≠
      .done ⟨ascii "HTTP/1.0 200 OK\r\nContent-Type: text/html\r\nContent-Length: 5\r\n\r\nhello",
        some (ascii "./cgi-like/echo", [ascii "./cgi-like/echo", ascii "hello"])⟩ := by
  refine ⟨⟨by decide, by decide, by decide⟩, by decide, by decide, by decide, by decide,
    by decide, by decide, by decide⟩


/-! ## The request line -/

/-- C3 as amended. For every request received whole (not empty, its text ending inside the
1024-byte buffer) whose whole text, not only its first line, has fewer than three
white-space separated tokens, the first of at most 15 and the second of at most 255
characters, `handle_client` responds `400 Bad Request`; nothing is routed to a handler and
no program is launched. -/
theorem too_few_tokens_bad_request (env : Env) (data : List Byte) (hne : data ≠ [])
    (hterm : data.length < BUFFER_SIZE ∨ 0 ∈ data.take BUFFER_SIZE)
    (hfew : (tokens (request_text data)).length < 3)
    (h1 : ∀ t ∈ (tokens (request_text data))[0]?, t.length ≤ 15)
    (h2 : ∀ t ∈ (tokens (request_text data))[1]?, t.length ≤ 255) :
    handle_client env data =
      .done ⟨send_error (ascii "400 Bad Request") (ascii "Malformed request line."), none⟩ ∧
    (sscanf_request (request_text data)).1 ≠ 3 ∧
    ascii "HTTP/1.0 400 Bad Request\r\n" <+:
      send_error (ascii "400 Bad Request") (ascii "Malformed request line.") := by
  have hcount : (sscanf_request (request_text data)).1 ≠ 3 := by
    intro h3
    obtain ⟨m, p, v, r1, r2, r3, _, s1, s2, s3⟩ := sscanf_three h3
    obtain ⟨t1, ts1, e1, _, c1⟩ := scan_str_tokens s1
    obtain ⟨t2, ts2, e2, _, c2⟩ := scan_str_tokens s2
    obtain ⟨t3, ts3, e3, _, _⟩ := scan_str_tokens s3
    have b1 : t1.length ≤ 15 := h1 t1 (by simp [e1])
    have d1 := c1 b1
    rw [e2] at d1
    have b2 : t2.length ≤ 255 := h2 t2 (by simp [e1, ← d1])
    have d2 := c2 b2
    rw [e3] at d2
    rw [e1, ← d1, ← d2] at hfew
    simp only [List.length_cons] at hfew
    omega
  refine ⟨?_, hcount, by decide⟩
  rw [handle_client_intact env hne hterm]
  unfold request_text at hcount
  simp [hcount]

/-- An instance of C3: a request made of two tokens is answered 400. -/
theorem too_few_tokens_bad_request_witness :
    handle_client demoEnv (ascii "GET /index.html\r\n\r\n") =
      .done ⟨send_error (ascii "400 Bad Request") (ascii "Malformed request line."), none⟩ ∧
    (sscanf_request (request_text (ascii "GET /index.html\r\n\r\n"))).1 ≠ 3 ∧
    ascii "HTTP/1.0 400 Bad Request\r\n" <+:
      send_error (ascii "400 Bad Request") (ascii "Malformed request line.") :=
  too_few_tokens_bad_request demoEnv (ascii "GET /index.html\r\n\r\n") (by decide) (by decide)
    (by decide) (by decide) (by decide)

/-- C3 fails as stated: the first line of `GET /index.html`, CRLF, `Host: a` has two
tokens, but `sscanf` takes its third field from the next line and the request is served
with `200 OK`. -/
theorem two_token_first_line_served :
    first_line (ascii "GET /index.html\r\nHost: a\r\n\r\n") = ascii "GET /index.html" ∧
    tokens (first_line (ascii "GET /index.html\r\nHost: a\r\n\r\n")) =
      [ascii "GET", ascii "/index.html"] ∧
    handle_client demoEnv (ascii "GET /index.html\r\nHost: a\r\n\r\n") =
      .done ⟨ascii "HTTP/1.0 200 OK\r\nContent-Type: text/html\r\nContent-Length: 2\r\n\r\nhi",
        none⟩ ∧
    handle_client demoEnv (ascii "GET /index.html\r\nHost: a\r\n\r\n") ≠
      .done ⟨send_error (ascii "400 Bad Request") (ascii "Malformed request line."), none⟩ := by
  refine ⟨by decide, by decide, by decide, by decide⟩

/-- C9 as amended. A request received whole is either answered `400 Bad Request`, when
`sscanf` reads fewer than three fields from its text, or dispatched with three fields that
are all present and within their bounds: method of 1 to 15 characters, path of 1 to 255,
version of 1 to 15, none of them holding white space. A first token longer than its bound
is not rejected: its first 15 characters are the method and what is left of it (up to 255
characters) is read as the path. -/
theorem dispatched_fields_bounded (env : Env) (data : List Byte) (hne : data ≠ [])
    (hterm : data.length < BUFFER_SIZE ∨ 0 ∈ data.take BUFFER_SIZE) :
    ((sscanf_request (request_text data)).1 ≠ 3 ∧
      handle_client env data =
        .done ⟨send_error (ascii "400 Bad Request") (ascii "Malformed request line."), none⟩) ∨
    (∃ method path version, sscanf_request (request_text data) = (3, method, path, version) ∧
      handle_client env data = .done (route env method path) ∧
      (0 < method.length ∧ method.length ≤ 15) ∧ (0 < path.length ∧ path.length ≤ 255) ∧
      (0 < version.length ∧ version.length ≤ 15) ∧
      (∀ c ∈ method ++ path ++ version, isspace c = false) ∧
      ∀ t ts, tokens (request_text data) = t :: ts →
        method = t.take 15 ∧ (15 < t.length → path = (t.drop 15).take 255)) := by
  by_cases h3 : (sscanf_request (request_text data)).1 = 3
  · right
    obtain ⟨m, p, v, r1, r2, _, he, s1, s2, _⟩ := sscanf_three h3
    obtain ⟨⟨m1, m2, m3⟩, ⟨p1, p2, p3⟩, ⟨v1, v2, v3⟩⟩ := sscanf_fields he
    refine ⟨m, p, v, he, handle_client_of_parses env ⟨hne, hterm, he⟩,
      ⟨List.length_pos.mpr m1, m2⟩, ⟨List.length_pos.mpr p1, p2⟩,
      ⟨List.length_pos.mpr v1, v2⟩, ?_, ?_⟩
    · intro c hc
      simp only [List.mem_append] at hc
      rcases hc with (h | h) | h
      · exact (m3 c h).2
      · exact (p3 c h).2
      · exact (v3 c h).2
    · intro t ts ht
      obtain ⟨t1, ts1, e1, em, _⟩ := scan_str_tokens s1
      rw [ht] at e1
      injection e1 with e1 _
      subst e1
      refine ⟨em, fun hlong => ?_⟩
      obtain ⟨rest2, hs⟩ := scan_str_overlong s1 ht hlong (by decide : 0 < 255)
      rw [s2] at hs
      injection hs with hs
      injection hs with hs _
  · left
    refine ⟨h3, ?_⟩
    rw [handle_client_intact env hne hterm]
    unfold request_text at h3
    simp [h3]

/-- An instance of C9 on `GET /index.html HTTP/1.0`. -/
theorem dispatched_fields_bounded_witness :
    ((sscanf_request (request_text (ascii "GET /index.html HTTP/1.0\r\n\r\n"))).1 ≠ 3 ∧
      handle_client demoEnv (ascii "GET /index.html HTTP/1.0\r\n\r\n") =
        .done ⟨send_error (ascii "400 Bad Request") (ascii "Malformed request line."), none⟩) ∨
    (∃ method path version,
      sscanf_request (request_text (ascii "GET /index.html HTTP/1.0\r\n\r\n")) =
        (3, method, path, version) ∧
      handle_client demoEnv (ascii "GET /index.html HTTP/1.0\r\n\r\n") =
        .done (route demoEnv method path) ∧
      (0 < method.length ∧ method.length ≤ 15) ∧ (0 < path.length ∧ path.length ≤ 255) ∧
      (0 < version.length ∧ version.length ≤ 15) ∧
      (∀ c ∈ method ++ path ++ version, isspace c = false) ∧
      ∀ t ts, tokens (request_text (ascii "GET /index.html HTTP/1.0\r\n\r\n")) = t :: ts →
        method = t.take 15 ∧ (15 < t.length → path = (t.drop 15).take 255)) :=
  dispatched_fields_bounded demoEnv (ascii "GET /index.html HTTP/1.0\r\n\r\n") (by decide)
    (by decide)

/-- C9 fails as stated: in `GETGETGETGETGETGET /index.html HTTP/1.0` the first token has 18
characters, over the bound of 15, yet the request is not answered 400: it is dispatched to
the file handler with method `GETGETGETGETGET` and path `GET`, and answered 404. -/
theorem overlong_method_dispatched :
    tokens (first_line (ascii "GETGETGETGETGETGET /index.html HTTP/1.0\r\n\r\n")) =
      [ascii "GETGETGETGETGETGET", ascii "/index.html", ascii "HTTP/1.0"] ∧
    15 < (ascii "GETGETGETGETGETGET").length ∧
    handle_client demoEnv (ascii "GETGETGETGETGETGET /index.html HTTP/1.0\r\n\r\n") =
      .done (handle_file_request demoEnv (ascii "GETGETGETGETGET") (ascii "GET")) ∧
    handle_client demoEnv (ascii "GETGETGETGETGETGET /index.html HTTP/1.0\r\n\r\n") =
      .done ⟨send_error (ascii "404 Not Found") (ascii "File not found."), none⟩ ∧
    handle_client demoEnv (ascii "GETGETGETGETGETGET /index.html HTTP/1.0\r\n\r\n") ≠
      .done ⟨send_error (ascii "400 Bad Request") (ascii "Malformed request line."), none⟩ := by
  refine ⟨by decide, by decide, by decide, by decide, by decide⟩


/-! ## Routing -/

/-- C7 at the longest path `sscanf` can deliver, `/cgi-like/` followed by a program segment
of 245 characters: `./cgi-like/<segment>` does not exist, yet the program whose name is the
segment cut to 244 characters is launched, because `./cgi-like/<segment>` (256 characters)
does not fit `cgi_path[256]`. -/
theorem cgi_program_name_cut :
    Parses (ascii "GET /cgi-like/" ++ List.replicate 245 97 ++ ascii " HTTP/1.0\r\n\r\n")
      (ascii "GET") (ascii "/cgi-like/" ++ List.replicate 245 97) (ascii "HTTP/1.0") ∧
    longEnv.stat (ascii "./cgi-like/" ++ List.replicate 245 97) = none ∧
    handle_client longEnv
        (ascii "GET /cgi-like/" ++ List.replicate 245 97 ++ ascii " HTTP/1.0\r\n\r\n") =
      .done ⟨ascii "HTTP/1.0 200 OK\r\nContent-Type: text/html\r\nContent-Length: 1\r\n\r\nx",
        some (ascii "./cgi-like/" ++ List.replicate 244 97,
          [ascii "./cgi-like/" ++ List.replicate 244 97])⟩ := by
  refine ⟨⟨by decide, by decide, by decide⟩, by decide, by decide⟩

/-- C4 on the CGI route: the path of `GET /cgi-like/../bin/tool` contains `..`, but the
request is handed to the CGI handler, which does not look for `..`: the program
`./bin/tool`, outside `./cgi-like/`, is run and the answer is `200 OK`, not
`403 Forbidden`. -/
theorem cgi_dotdot_not_forbidden :
    Parses (ascii "GET /cgi-like/../bin/tool HTTP/1.0\r\n\r\n") (ascii "GET")
      (ascii "/cgi-like/../bin/tool") (ascii "HTTP/1.0") ∧
    ascii ".." <:+: ascii "/cgi-like/../bin/tool" ∧
    handle_client toolEnv (ascii "GET /cgi-like/../bin/tool HTTP/1.0\r\n\r\n") =
      .done ⟨ascii "HTTP/1.0 200 OK\r\nContent-Type: text/html\r\nContent-Length: 3\r\n\r\nout",
        some (ascii "./cgi-like/../bin/tool", [ascii "./cgi-like/../bin/tool"])⟩ ∧
    ¬ ascii "HTTP/1.0 403 Forbidden\r\n" <+:
      ascii "HTTP/1.0 200 OK\r\nContent-Type: text/html\r\nContent-Length: 3\r\n\r\nout" := by
  refine ⟨⟨by decide, by decide, by decide⟩, ?_, by decide, by decide⟩
  exact (find_sub_iff _ _).mp (by decide)

/-- The part of C4 that the code implements: on the static route every path containing `..`
is answered `403 Forbidden`, whatever the method and the file system. -/
theorem static_dotdot_forbidden (env : Env) (data method path version : List Byte)
    (hparse : Parses data method path version)
    (hcgi : ¬ ascii "/cgi-like/" <+: path) (hdd : ascii ".." <:+: path) :
    handle_client env data =
      .done ⟨send_error (ascii "403 Forbidden") (ascii "Access denied."), none⟩ ∧
    ascii "HTTP/1.0 403 Forbidden\r\n" <+:
      send_error (ascii "403 Forbidden") (ascii "Access denied.") := by
  obtain ⟨_, hp, _⟩ := parses_nul_free hparse
  refine ⟨?_, by decide⟩
  rw [handle_client_of_parses env hparse, route_static env hp hcgi,
    handle_file_request_dotdot env hp hdd]

end Httpd
